import Mathlib

/-!
Verification of the configuration resolution engine of the `cabinet`
repository (`src/cabinet/config_utils.py`) against its natural-language
specification.

The Python source is shallowly embedded: each function of
`config_utils.py` is translated into an executable Lean definition over
explicit data types.  Python exceptions are modelled by `Except PyError`;
Python dictionaries (which preserve insertion order) are modelled by
association lists with unique keys maintained by an upsert operation;
the nested settings tree produced by `get_keys_from` is the inductive
type `CTree`.

Parts of the runtime that are not part of the repository are modelled
explicitly and documented where they are introduced: the import system
(`importlib` plus `getattr`) becomes a finite module table, classes and
`inspect.signature` become the `PyClass` type, `difflib.get_close_matches`
becomes an oracle function carried by the environment, and the
`StorageContainer` collaborator (whose source file is not in the
repository snapshot) is modelled from the specification's collaborator
contract.
-/

/-- Python exceptions that the embedded code can raise or observe.  Each
constructor carries the exception message. -/
inductive PyError where
  | cabinetConfigError (msg : String)
  | valueError (msg : String)
  | typeError (msg : String)
  | keyError (msg : String)
  | indexError (msg : String)
  | attributeError (msg : String)
  | nameError (msg : String)
  | syntaxError (msg : String)
  deriving DecidableEq, Repr

/-- The message carried by an exception (`str(err)` in the source). -/
def PyError.msg : PyError → String
  | .cabinetConfigError m => m
  | .valueError m => m
  | .typeError m => m
  | .keyError m => m
  | .indexError m => m
  | .attributeError m => m
  | .nameError m => m
  | .syntaxError m => m

/-- Python values produced by `decode_kwarg`: integers, strings and the
structured literals (lists, sets, dicts) produced by evaluating a
bracket-delimited value. -/
inductive PyLit where
  | int (n : Int)
  | str (s : String)
  | list (xs : List PyLit)
  | set (xs : List PyLit)
  | dict (xs : List (PyLit × PyLit))
  deriving Repr

/-- An instantiated Python object (a handler or filter instance).  The
engine never inspects instances, so a tag is all the model needs. -/
structure PyObj where
  tag : String
  deriving DecidableEq, Repr

/-- A keyword-argument value assembled by the builders: either a decoded
literal or (for the `filters` argument of a handler) a list of already
instantiated filter objects. -/
inductive ArgVal where
  | lit (v : PyLit)
  | objs (fs : List PyObj)
  deriving Repr

/-- One parameter of a Python `__init__` signature: its name and whether
it is a `**kwargs`-style variadic keyword collector
(`param.kind == param.VAR_KEYWORD` in the source). -/
structure PyParam where
  name : String
  isVarKeyword : Bool
  deriving DecidableEq, Repr

/-- A Python class as seen by `get_init_properties`: the parameters that
`inspect.signature(cls.__init__)` reports (in Python this is the nearest
`__init__` found on the method-resolution order, so a class that does not
declare its own constructor carries its parent's signature here), and the
parent link giving the linearized ancestry `cls.mro()`.  `obj` is the
root class `object`, whose `__init__` signature is
`(self, *args, **kwargs)`. -/
inductive PyClass where
  | obj
  | cls (initParams : List PyParam) (parent : PyClass)
  deriving DecidableEq, Repr

/-- The parameters reported by `inspect.signature(cls.__init__)`. -/
def PyClass.sigParams : PyClass → List PyParam
  | .obj => [⟨"self", false⟩, ⟨"args", false⟩, ⟨"kwargs", true⟩]
  | .cls ps _ => ps

/-- `cls.mro()`: the class followed by its ancestry, ending at `object`. -/
def PyClass.mro : PyClass → List PyClass
  | .obj => [.obj]
  | .cls ps p => .cls ps p :: p.mro

/-- `issubclass(c, d)` for the single-inheritance chains of the model. -/
def issubclass (c d : PyClass) : Bool :=
  d ∈ c.mro

/- ### String helpers mirroring the Python string methods used. -/

/-- The apostrophe character (written via its code point so that the
development keeps to double-quoted text). -/
def squoteChar : Char := Char.ofNat 39

/-- The double-quote character. -/
def dquoteChar : Char := Char.ofNat 34

/-- `s.lstrip(c)`: remove every leading occurrence of the character. -/
def pyLstrip (s : String) (c : Char) : String :=
  String.mk (s.data.dropWhile (· == c))

/-- `s.rstrip(c)`: remove every trailing occurrence of the character. -/
def pyRstrip (s : String) (c : Char) : String :=
  String.mk ((s.data.reverse.dropWhile (· == c)).reverse)

/-- `s.strip(c)`: remove every leading and trailing occurrence. -/
def pyStripChar (s : String) (c : Char) : String :=
  pyRstrip (pyLstrip s c) c

/-- `s.startswith(p)` (character-level, as Python strings are
sequences of characters). -/
def pyStartsWith (s p : String) : Bool :=
  p.data.isPrefixOf s.data

/-- `s.endswith(p)`. -/
def pyEndsWith (s p : String) : Bool :=
  p.data.isSuffixOf s.data

/-- Python's whitespace set for `str.strip()` with no arguments. -/
def isPySpace (c : Char) : Bool :=
  c == ' ' || c == '\t' || c == '\n' || c == '\r' || c == Char.ofNat 11 || c == Char.ofNat 12

/-- `s.strip()`: remove leading and trailing whitespace. -/
def pyStrip (s : String) : String :=
  String.mk (((s.data.dropWhile isPySpace).reverse.dropWhile isPySpace).reverse)

/-- `s.lower()` for ASCII text (configuration values are ASCII;
Python's full Unicode case mapping is not modelled). -/
def pyLower (s : String) : String :=
  String.mk (s.data.map Char.toLower)

/-- Replace every occurrence of the character `c` by the characters
`r`; this is `s.replace(before, after)` for the one-character pattern
the source uses (`key.replace(LBRACKET, DOT-LBRACKET)`). -/
def replaceChar (c : Char) (r : List Char) (l : List Char) : List Char :=
  match l with
  | [] => []
  | d :: rest => if d == c then r ++ replaceChar c r rest else d :: replaceChar c r rest

/-- `s.split(".")` on the character list: split at every dot, keeping
empty segments, as Python does. -/
def splitDots : List Char → List (List Char)
  | [] => [[]]
  | c :: rest =>
    if c == '.' then [] :: splitDots rest
    else
      match splitDots rest with
      | [] => [[c]]
      | g :: gs => (c :: g) :: gs

/-- `s.rpartition(".")` restricted to the two components the source
uses: the text before the last dot (empty when there is no dot) and the
text after it. -/
def rpartitionDot (s : String) : String × String :=
  let parts := splitDots s.data
  if parts.length ≤ 1 then ("", s)
  else (String.mk (List.intercalate ['.'] parts.dropLast), String.mk (parts.getLastD []))

/-- `int(s)` on the strings the configuration grammar produces: optional
surrounding whitespace, an optional sign, then at least one decimal
digit.  (CPython additionally accepts underscore digit separators and
non-ASCII digits; those are outside the configuration grammar and not
modelled.)  Returns `none` where `int` raises `ValueError`. -/
def pyInt (s : String) : Option Int :=
  let t := pyStrip s
  let (neg, ds) :=
    match t.data with
    | '-' :: rest => (true, rest)
    | '+' :: rest => (false, rest)
    | l => (false, l)
  if ds.isEmpty || !ds.all Char.isDigit then none
  else
    let n : Nat := ds.foldl (fun acc c => 10 * acc + c.toNat - '0'.toNat) 0
    some (if neg then -(n : Int) else (n : Int))

/-- `s.isdigit()` for ASCII text: nonempty and all decimal digits.
(CPython also accepts other Unicode digit characters; configuration
values are ASCII and those are not modelled.) -/
def pyIsDigit (s : String) : Bool :=
  !s.data.isEmpty && s.data.all Char.isDigit

/-- Substring test (`needle in hay` on Python strings), used to state
what an error message does or does not mention. -/
def strContains (hay needle : String) : Bool :=
  hay.data.tails.any (fun t => needle.data.isPrefixOf t)

/-- Source: `unquote` (config_utils.py lines 262-274).  `value[0]`
raises `IndexError` on the empty string; otherwise, when the first
character is a quote equal to the last character, `value[1:-1]` is
returned (for a one-character quote string this is the empty string),
else the value unchanged. -/
def unquote (value : String) : Except PyError String :=
  match value.data with
  | [] => .error (.indexError "string index out of range")
  | c :: cs =>
    if (c = dquoteChar ∨ c = squoteChar) ∧ c = cs.getLastD c then
      .ok (String.mk cs.dropLast)
    else
      .ok value

/- ### The evaluator used for bracket-delimited values.

The source parses bracket-delimited values with the built-in
`eval(value, ..., ...)` under empty global and local dictionaries
(config_utils.py line 302).  CPython's `eval` is a general expression
evaluator; the model below embeds the fragment of it that configuration
values can reach: integer literals, quoted string literals (without
escape processing), list/set/dict displays, the binary `+` operator on
integers, and bare names.  A bare name fails with `NameError` here;
CPython would first consult the injected `__builtins__` namespace, so
the model under-approximates what `eval` accepts — every behaviour the
model exhibits (in particular: evaluating arithmetic, i.e. executing an
expression rather than reading a literal) is a behaviour of the source. -/

/-- Whitespace skip for the evaluator. -/
def skipWs (cs : List Char) : List Char :=
  cs.dropWhile (fun c => c == ' ')

mutual

/-- Parse one expression: an atom followed by zero or more `+` atoms,
adding integers left to right. -/
def parseExpr (fuel : Nat) (cs : List Char) : Except PyError (PyLit × List Char) :=
  match fuel with
  | 0 => .error (.syntaxError "recursion limit")
  | fuel + 1 =>
    match parseAtom fuel (skipWs cs) with
    | .error e => .error e
    | .ok (v, rest) => parseSumRest fuel v (skipWs rest)

/-- The `+ atom` continuation of `parseExpr`. -/
def parseSumRest (fuel : Nat) (acc : PyLit) (cs : List Char) : Except PyError (PyLit × List Char) :=
  match fuel with
  | 0 => .error (.syntaxError "recursion limit")
  | fuel + 1 =>
    match cs with
    | '+' :: rest =>
      match parseAtom fuel (skipWs rest) with
      | .error e => .error e
      | .ok (v, rest2) =>
        match acc, v with
        | .int a, .int b => parseSumRest fuel (.int (a + b)) (skipWs rest2)
        | _, _ => .error (.typeError "unsupported operand type for +")
    | _ => .ok (acc, cs)

/-- Parse one atom: an integer, a quoted string, a list display, a
set or dict display, or a bare name. -/
def parseAtom (fuel : Nat) (cs : List Char) : Except PyError (PyLit × List Char) :=
  match fuel with
  | 0 => .error (.syntaxError "recursion limit")
  | fuel + 1 =>
    match cs with
    | [] => .error (.syntaxError "unexpected EOF while parsing")
    | c :: rest =>
      if c.isDigit then
        let ds := (c :: rest).takeWhile Char.isDigit
        let n : Nat := ds.foldl (fun acc d => 10 * acc + d.toNat - '0'.toNat) 0
        .ok (.int n, (c :: rest).dropWhile Char.isDigit)
      else if c = dquoteChar ∨ c = squoteChar then
        let body := rest.takeWhile (fun d => d ≠ c)
        match rest.dropWhile (fun d => d ≠ c) with
        | [] => .error (.syntaxError "unterminated string literal")
        | _ :: rest2 => .ok (.str (String.mk body), rest2)
      else if c = '[' then
        parseElems fuel ']' [] (skipWs rest)
      else if c = '{' then
        match skipWs rest with
        | '}' :: rest2 => .ok (.dict [], rest2)
        | rest2 =>
          match parseExpr fuel rest2 with
          | .error e => .error e
          | .ok (v, rest3) =>
            match skipWs rest3 with
            | ':' :: rest4 =>
              match parseExpr fuel (skipWs rest4) with
              | .error e => .error e
              | .ok (w, rest5) => parseDictRest fuel [(v, w)] (skipWs rest5)
            | rest4 => parseSetRest fuel [v] rest4
      else if c.isAlpha ∨ c = '_' then
        let nm := (c :: rest).takeWhile (fun d => d.isAlphanum ∨ d = '_')
        .error (.nameError ("name " ++ String.mk nm ++ " is not defined"))
      else
        .error (.syntaxError "invalid syntax")

/-- Parse the comma-separated elements of a list display up to the
closing bracket (allowing a trailing comma, as Python does). -/
def parseElems (fuel : Nat) (close : Char) (acc : List PyLit) (cs : List Char) : Except PyError (PyLit × List Char) :=
  match fuel with
  | 0 => .error (.syntaxError "recursion limit")
  | fuel + 1 =>
    match cs with
    | c :: rest =>
      if c = close then .ok (.list acc.reverse, rest)
      else
        match parseExpr fuel (c :: rest) with
        | .error e => .error e
        | .ok (v, rest2) =>
          match skipWs rest2 with
          | ',' :: rest3 => parseElems fuel close (v :: acc) (skipWs rest3)
          | d :: rest3 =>
            if d = close then .ok (.list (v :: acc).reverse, rest3)
            else .error (.syntaxError "invalid syntax")
          | [] => .error (.syntaxError "unexpected EOF while parsing")
    | [] => .error (.syntaxError "unexpected EOF while parsing")

/-- Remaining elements of a set display after the first. -/
def parseSetRest (fuel : Nat) (acc : List PyLit) (cs : List Char) : Except PyError (PyLit × List Char) :=
  match fuel with
  | 0 => .error (.syntaxError "recursion limit")
  | fuel + 1 =>
    match cs with
    | '}' :: rest => .ok (.set acc.reverse, rest)
    | ',' :: rest =>
      match skipWs rest with
      | '}' :: rest2 => .ok (.set acc.reverse, rest2)
      | rest2 =>
        match parseExpr fuel rest2 with
        | .error e => .error e
        | .ok (v, rest3) => parseSetRest fuel (v :: acc) (skipWs rest3)
    | _ => .error (.syntaxError "invalid syntax")

/-- Remaining `key : value` entries of a dict display after the first. -/
def parseDictRest (fuel : Nat) (acc : List (PyLit × PyLit)) (cs : List Char) : Except PyError (PyLit × List Char) :=
  match fuel with
  | 0 => .error (.syntaxError "recursion limit")
  | fuel + 1 =>
    match cs with
    | '}' :: rest => .ok (.dict acc.reverse, rest)
    | ',' :: rest =>
      match skipWs rest with
      | '}' :: rest2 => .ok (.dict acc.reverse, rest2)
      | rest2 =>
        match parseExpr fuel rest2 with
        | .error e => .error e
        | .ok (k, rest3) =>
          match skipWs rest3 with
          | ':' :: rest4 =>
            match parseExpr fuel (skipWs rest4) with
            | .error e => .error e
            | .ok (v, rest5) => parseDictRest fuel ((k, v) :: acc) (skipWs rest5)
          | _ => .error (.syntaxError "invalid syntax")
    | _ => .error (.syntaxError "invalid syntax")

end

/-- Source: the call `eval(value, ..., ...)` with empty dictionaries at
config_utils.py line 302, on the modelled fragment.  The whole input
must be consumed. -/
def pyEval (s : String) : Except PyError PyLit :=
  match parseExpr (s.length + 1) s.data with
  | .error e => .error e
  | .ok (v, rest) =>
    if (skipWs rest).isEmpty then .ok v
    else .error (.syntaxError "invalid syntax")

/- ### The settings tree. -/

/-- A node of the nested settings dictionary built by `get_keys_from`:
the reserved `None` slot (`leaf`) and the ordinary string-keyed entries
(`children`), in insertion order as a Python dict keeps them. -/
inductive CTree where
  | node (leaf : Option String) (children : List (String × CTree))

/-- The reserved `None` slot of a node. -/
def CTree.leaf : CTree → Option String
  | .node l _ => l

/-- The string-keyed entries of a node, in insertion order. -/
def CTree.children : CTree → List (String × CTree)
  | .node _ c => c

/-- The empty dict. -/
def emptyTree : CTree := .node none []

/-- Ordered-dict lookup. -/
def alookup {α : Type} (l : List (String × α)) (k : String) : Option α :=
  (l.find? (fun kv => kv.1 == k)).map (fun kv => kv.2)

/-- Ordered-dict assignment: replace in place when the key exists,
append otherwise (Python dict insertion-order semantics). -/
def aupsert {α : Type} (l : List (String × α)) (k : String) (v : α) : List (String × α) :=
  match l with
  | [] => [(k, v)]
  | (k2, w) :: rest =>
    if k2 == k then (k2, v) :: rest else (k2, w) :: aupsert rest k v

/-- Source: the walk of `set_nested_value` (config_utils.py lines
351-358) after the key has been split into parts: follow
`setdefault(part, dict())` through the parts and store the stripped
value under the reserved slot of the final node. -/
def setNested (t : CTree) : List String → String → CTree
  | [], v => .node (some (pyStrip v)) t.children
  | p :: ps, v =>
    let child := (alookup t.children p).getD emptyTree
    .node t.leaf (aupsert t.children p (setNested child ps v))

/-- Source: `set_nested_value` (config_utils.py lines 335-358): rewrite
every opening bracket to a dot-bracket, split on dots, and fold the
parts into the tree. -/
def set_nested_value (key value : String) (result : CTree) : CTree :=
  setNested result ((splitDots (replaceChar '[' ['.', '['] key.data)).map String.mk) value

/-- Source: `get_keys_from` (config_utils.py lines 314-332): fold the
keys that start with `prefix.` or `prefix[` into a nested tree and
return the subtree stored under `prefix` (the empty dict when absent). -/
def get_keys_from (pfx : String) (settings : List (String × String)) : CTree :=
  let result := settings.foldl
    (fun acc kv =>
      if pyStartsWith kv.1 (pfx ++ ".") || pyStartsWith kv.1 (pfx ++ "[") then
        set_nested_value kv.1 kv.2 acc
      else acc)
    emptyTree
  (alookup result.children pfx).getD emptyTree

/- ### decode_kwarg. -/

/-- The two shapes of value that `decode_kwarg` receives from the
builders: a sub-tree (a dict whose reserved slot holds the raw string)
or a raw string.  The source also raises `ValueError` on any other
type; no other type can reach it from the embedded call sites. -/
inductive KwargIn where
  | tree (t : CTree)
  | str (s : String)

/-- Source: the string branch of `decode_kwarg` (config_utils.py lines
297-311): bracket-delimited values go to `eval` with any failure
re-raised as a `CabinetConfigError` carrying the offending text;
all-digit values parse as a non-negative integer; everything else goes
through `unquote` (whose `IndexError` on the empty string propagates). -/
def decodeStr (value : String) : Except PyError PyLit :=
  if (pyStartsWith value "[" && pyEndsWith value "]")
      || (pyStartsWith value "\x7b" && pyEndsWith value "\x7d") then
    match pyEval value with
    | .ok v => .ok v
    | .error err =>
      .error (.cabinetConfigError
        ("Pyramid settings bad value " ++ value ++ ": " ++ err.msg))
  else if pyIsDigit value then
    .ok (.int (value.data.foldl (fun acc c => 10 * acc + c.toNat - '0'.toNat) 0))
  else
    match unquote value with
    | .ok s => .ok (.str s)
    | .error e => .error e

/-- Source: `decode_kwarg` (config_utils.py lines 277-311).  A dict
input has its reserved slot popped and decoded (the slot always holds a
string here, so the recursion takes one step); a missing slot raises
`ValueError` (the source interpolates the dict into the message; the
repr is not reproduced). -/
def decode_kwarg : KwargIn → Except PyError PyLit
  | .tree t =>
    match t.leaf with
    | none => .error (.valueError "decode_kwarg got an invalid dict")
    | some s => decodeStr s
  | .str s => decodeStr s

/- ### The specification@s literal-only evaluator.

Follows the words of spec.md section 4.2: a bracket-delimited value is
to be parsed as "a structured literal (list, set, or mapping of
literals) using a safe literal-only evaluator (no arbitrary expression
execution, no name resolution)".  This definition is written from the
specification, not from the source, to be compared against the
source@s `eval`-based decoder.  Literals here are decimal integers,
quoted strings, and nested list/set/dict displays of literals. -/

mutual

/-- One structured literal. -/
def parseLit (fuel : Nat) (cs : List Char) : Except PyError (PyLit × List Char) :=
  match fuel with
  | 0 => .error (.syntaxError "recursion limit")
  | fuel + 1 =>
    match skipWs cs with
    | [] => .error (.syntaxError "unexpected EOF while parsing")
    | c :: rest =>
      if c.isDigit then
        let ds := (c :: rest).takeWhile Char.isDigit
        let n : Nat := ds.foldl (fun acc d => 10 * acc + d.toNat - '0'.toNat) 0
        .ok (.int n, (c :: rest).dropWhile Char.isDigit)
      else if c = dquoteChar ∨ c = squoteChar then
        let body := rest.takeWhile (fun d => d ≠ c)
        match rest.dropWhile (fun d => d ≠ c) with
        | [] => .error (.syntaxError "unterminated string literal")
        | _ :: rest2 => .ok (.str (String.mk body), rest2)
      else if c = '[' then
        parseLitElems fuel [] (skipWs rest)
      else if c = '{' then
        match skipWs rest with
        | '}' :: rest2 => .ok (.dict [], rest2)
        | rest2 =>
          match parseLit fuel rest2 with
          | .error e => .error e
          | .ok (v, rest3) =>
            match skipWs rest3 with
            | ':' :: rest4 =>
              match parseLit fuel (skipWs rest4) with
              | .error e => .error e
              | .ok (w, rest5) => parseLitDictRest fuel [(v, w)] (skipWs rest5)
            | rest4 => parseLitSetRest fuel [v] rest4
      else
        .error (.syntaxError "malformed literal")

/-- Comma-separated literals up to a closing square bracket. -/
def parseLitElems (fuel : Nat) (acc : List PyLit) (cs : List Char) : Except PyError (PyLit × List Char) :=
  match fuel with
  | 0 => .error (.syntaxError "recursion limit")
  | fuel + 1 =>
    match cs with
    | ']' :: rest => .ok (.list acc.reverse, rest)
    | _ =>
      match parseLit fuel cs with
      | .error e => .error e
      | .ok (v, rest2) =>
        match skipWs rest2 with
        | ',' :: rest3 => parseLitElems fuel (v :: acc) (skipWs rest3)
        | ']' :: rest3 => .ok (.list (v :: acc).reverse, rest3)
        | _ => .error (.syntaxError "malformed literal")

/-- Remaining elements of a set of literals. -/
def parseLitSetRest (fuel : Nat) (acc : List PyLit) (cs : List Char) : Except PyError (PyLit × List Char) :=
  match fuel with
  | 0 => .error (.syntaxError "recursion limit")
  | fuel + 1 =>
    match cs with
    | '}' :: rest => .ok (.set acc.reverse, rest)
    | ',' :: rest =>
      match skipWs rest with
      | '}' :: rest2 => .ok (.set acc.reverse, rest2)
      | rest2 =>
        match parseLit fuel rest2 with
        | .error e => .error e
        | .ok (v, rest3) => parseLitSetRest fuel (v :: acc) (skipWs rest3)
    | _ => .error (.syntaxError "malformed literal")

/-- Remaining entries of a mapping of literals. -/
def parseLitDictRest (fuel : Nat) (acc : List (PyLit × PyLit)) (cs : List Char) : Except PyError (PyLit × List Char) :=
  match fuel with
  | 0 => .error (.syntaxError "recursion limit")
  | fuel + 1 =>
    match cs with
    | '}' :: rest => .ok (.dict acc.reverse, rest)
    | ',' :: rest =>
      match skipWs rest with
      | '}' :: rest2 => .ok (.dict acc.reverse, rest2)
      | rest2 =>
        match parseLit fuel rest2 with
        | .error e => .error e
        | .ok (k, rest3) =>
          match skipWs rest3 with
          | ':' :: rest4 =>
            match parseLit fuel (skipWs rest4) with
            | .error e => .error e
            | .ok (v, rest5) => parseLitDictRest fuel ((k, v) :: acc) (skipWs rest5)
          | _ => .error (.syntaxError "malformed literal")
    | _ => .error (.syntaxError "malformed literal")

end

/-- The literal-only evaluator the specification describes: accepts a
structured literal covering the whole input and nothing else. -/
def literalOnlyEval (s : String) : Except PyError PyLit :=
  match parseLit (s.length + 1) s.data with
  | .error e => .error e
  | .ok (v, rest) =>
    if (skipWs rest).isEmpty then .ok v
    else .error (.syntaxError "malformed literal")

/- ### Parameter introspection. -/

/-- Source: `get_init_properties` (config_utils.py lines 36-67): collect
the signature parameter names of the class, skipping `self` and any
`**kwargs` collector, and recurse into `cls.mro()[1]` exactly when that
next ancestor is a subclass of `to_class`.  The expression
`cls.mro()[1]` at line 64 is evaluated unconditionally; on the root
class `object` the mro is the one-element list `[object]`, so the
source raises an uncaught `IndexError` ("list index out of range")
there — which happens exactly when the function is invoked on the root
class itself, in particular whenever the recursion reaches it (and it
does reach it whenever `to_class` is `object`, the declared default of
the parameter, since every ancestor subclasses `object`).  The
collected set built before the crash is discarded with the stack frame,
so the model may report the error immediately. -/
def get_init_properties (c : PyClass) (toClass : PyClass) : Except PyError (Finset String) :=
  let own : Finset String :=
    ((c.sigParams.filter
        (fun p => !p.isVarKeyword && p.name ≠ "self")).map PyParam.name).toFinset
  match c with
  | .obj => .error (.indexError "list index out of range")
  | .cls _ parent =>
    if issubclass parent toClass then
      match get_init_properties parent toClass with
      | .error e => .error e
      | .ok rest => .ok (own ∪ rest)
    else .ok own

/- ### The runtime environment. -/

/-- A resolvable Python type: the class object (for introspection) and
its constructor.  The constructor is an arbitrary function so that
theorems quantify over every possible component implementation,
including ones whose construction raises. -/
structure PyType where
  cls : PyClass
  ctor : List (String × ArgVal) → Except PyError PyObj

/-- The ambient Python runtime as the engine observes it: the importable
modules with their attributes (modelling `importlib.import_module` plus
`getattr`), the `StorageHandlerBase` class used as the introspection
stop-class (its defining file is not part of the repository snapshot),
and an oracle for `difflib.get_close_matches(key, valid_args, 1)` —
returning the accepted name closest to the key by the difflib
similarity measure when one clears the cutoff, `none` otherwise.  The
oracle is kept abstract: the stdlib similarity measure itself is not
re-implemented, and every theorem about suggestions holds for any
oracle. -/
structure PyEnv where
  modules : List (String × List (String × PyType))
  handlerBase : PyClass
  closeMatch : String → Finset String → Option String

/-- Source: `try_import` (config_utils.py lines 10-33): split the name
at the last dot, defaulting the module, import the module and fetch the
attribute; an import failure becomes `ValueError` with message
"module not installed", a missing attribute becomes `ValueError` with
message "bad class name". -/
def try_import (env : PyEnv) (defaultModule model : String) : Except PyError PyType :=
  let mc := rpartitionDot model
  let moduleName := if mc.1 = "" then defaultModule else mc.1
  match alookup env.modules moduleName with
  | none => .error (.valueError "module not installed")
  | some attrs =>
    match alookup attrs mc.2 with
    | none => .error (.valueError "bad class name")
    | some ty => .ok ty

/- ### Filter construction. -/

/-- The decoded keyword arguments of a filter: the dict comprehension at
config_utils.py line 253 — every child key, with no validation against
the accepted parameter names, each value decoded.  Decoding failures
propagate as they are raised. -/
def decodeAllKwargs : List (String × CTree) → Except PyError (List (String × ArgVal))
  | [] => .ok []
  | (k, sub) :: rest =>
    match decode_kwarg (.tree sub) with
    | .error e => .error e
    | .ok v =>
      match decodeAllKwargs rest with
      | .error e => .error e
      | .ok kws => .ok ((k, .lit v) :: kws)

/-- Source: `get_filter` (config_utils.py lines 234-259): pop the
reserved slot to get the type name (a missing slot is a `KeyError`, as
`dict.pop` raises), resolve it against the `cabinet.filters` default
module with `ValueError` re-raised as a located `CabinetConfigError`,
decode every child as a keyword argument, and instantiate, re-raising
any constructor exception as a located `CabinetConfigError` carrying
the original message. -/
def get_filter (env : PyEnv) (kp : String) (t : CTree) : Except PyError PyObj :=
  match t.leaf with
  | none => .error (.keyError "None")
  | some filterName =>
    match try_import env "cabinet.filters" filterName with
    | .error (.valueError _) =>
      .error (.cabinetConfigError ("Pyramid settings bad value for " ++ kp))
    | .error e => .error e
    | .ok ty =>
      match decodeAllKwargs t.children with
      | .error e => .error e
      | .ok kwargs =>
        match ty.ctor kwargs with
        | .error e =>
          .error (.cabinetConfigError
            ("Pyramid settings bad args for " ++ kp ++ ": " ++ e.msg))
        | .ok f => .ok f

/-- The bracket-index parse at config_utils.py line 223:
`int(filter_ref.lstrip("[").rstrip("]"))`. -/
def parseFilterIndex (ref : String) : Option Int :=
  pyInt (pyRstrip (pyLstrip ref '[') ']')

/-- The `(index, filter)` pairs collected by the loop of
`get_all_filters` (config_utils.py lines 220-228), in settings order; a
bad index or a failing `get_filter` aborts with the error the source
raises there (the source appends the `int` failure reason; its exact
text is reproduced without the quoting of the repr). -/
def collectFilterPairs (env : PyEnv) (kp : String) : List (String × CTree) → Except PyError (List (Int × PyObj))
  | [] => .ok []
  | (ref, sub) :: rest =>
    match parseFilterIndex ref with
    | none =>
      .error (.cabinetConfigError
        ("Pyramid settings bad key " ++ kp ++ ref
          ++ ": invalid literal for int() with base 10: "
          ++ pyRstrip (pyLstrip ref '[') ']'))
    | some idx =>
      match get_filter env (kp ++ ".filters" ++ ref) sub with
      | .error e => .error e
      | .ok f =>
        match collectFilterPairs env kp rest with
        | .error e => .error e
        | .ok ps => .ok ((idx, f) :: ps)

/-- The comparison `filters.sort()` uses on its `(index, filter)`
tuples, as far as the first components decide it. -/
def pairLe (a b : Int × PyObj) : Prop := a.1 ≤ b.1

instance : DecidableRel pairLe := fun a b => inferInstanceAs (Decidable (a.1 ≤ b.1))

instance : IsTotal (Int × PyObj) pairLe := ⟨fun a b => Int.le_total a.1 b.1⟩

instance : IsTrans (Int × PyObj) pairLe := ⟨fun _ _ _ h h2 => le_trans h h2⟩

/-- Source: `get_all_filters` (config_utils.py lines 206-231): collect
the pairs, `filters.sort()`, drop the indices.  Python's list sort is a
stable sort on the tuples; it compares the integer first components and
falls back to the (unorderable) filter objects only on equal indices,
so on distinct indices it is exactly a stable sort by index, modelled
with `List.insertionSort` (also stable).  The reserved slot, were it
present among the filter entries, would make the source call `.lstrip`
on `None`; the resulting `AttributeError` is caught by the
`except Exception` at line 224 and re-raised as the located "bad key"
`CabinetConfigError`, with `None` and the `AttributeError` text
interpolated (the repr quoting of the original message is dropped
here, as everywhere in the model).  The model reports that case up
front rather than tracking the slot's position in the iteration
order. -/
def get_all_filters (env : PyEnv) (kp : String) (t : CTree) : Except PyError (List PyObj) :=
  match t.leaf with
  | some _ =>
    .error (.cabinetConfigError
      ("Pyramid settings bad key " ++ kp ++ "None: NoneType object has no attribute lstrip"))
  | none =>
    match collectFilterPairs env kp t.children with
    | .error e => .error e
    | .ok ps => .ok ((ps.insertionSort pairLe).map Prod.snd)

/- ### Handler construction. -/

/-- The suggestion text built at config_utils.py lines 186-189: empty
when the close-match oracle finds nothing, otherwise
` Did you mean "<name>.<match>"?` (with its leading space). -/
def maybeTxt (name : String) (m : Option String) : String :=
  match m with
  | none => ""
  | some s => " Did you mean \"" ++ name ++ "." ++ s ++ "\"?"

/-- The keyword-argument loop of `get_handler` (config_utils.py lines
183-196): each child key must be an accepted parameter name — otherwise
a located `CabinetConfigError` whose message appends the close-match
suggestion; the key `filters` is delegated to `get_all_filters`; every
other accepted key is bound to its decoded value.  `acc` is the kwargs
dict under construction. -/
def processKwargs (env : PyEnv) (name : String) (validArgs : Finset String)
    (acc : List (String × ArgVal)) : List (String × CTree) → Except PyError (List (String × ArgVal))
  | [] => .ok acc
  | (key, sub) :: rest =>
    if key ∉ validArgs then
      .error (.cabinetConfigError
        ("Pyramid invalid setting \"" ++ name ++ "." ++ key ++ "\". "
          ++ maybeTxt name (env.closeMatch key validArgs)))
    else if key = "filters" then
      match get_all_filters env name sub with
      | .error e => .error e
      | .ok fs => processKwargs env name validArgs (aupsert acc "filters" (.objs fs)) rest
    else
      match decode_kwarg (.tree sub) with
      | .error e => .error e
      | .ok v => processKwargs env name validArgs (aupsert acc key (.lit v)) rest

/-- The stages of `get_handler` before instantiation: pop the reserved
slot (`dict.pop(None)` raises `KeyError` when absent), resolve the type
against the `cabinet.handlers` default module (`ValueError` re-raised
as a located `CabinetConfigError`), introspect the accepted parameter
names bounded by `StorageHandlerBase` (an `IndexError` raised there —
the resolved type being the root class — propagates uncaught, as in
the source), and run the keyword-argument loop. -/
def getHandlerStages (env : PyEnv) (kp : String) (t : CTree) : Except PyError (PyType × List (String × ArgVal)) :=
  let name := kp ++ ".handler"
  match t.leaf with
  | none => .error (.keyError "None")
  | some handlerName =>
    match try_import env "cabinet.handlers" handlerName with
    | .error (.valueError _) =>
      .error (.cabinetConfigError ("Pyramid settings bad value for " ++ name))
    | .error e => .error e
    | .ok ty =>
      match get_init_properties ty.cls env.handlerBase with
      | .error e => .error e
      | .ok validArgs =>
        match processKwargs env name validArgs [] t.children with
        | .error e => .error e
        | .ok kwargs => .ok (ty, kwargs)

/-- Source: `get_handler` (config_utils.py lines 161-203): the stages
above, then instantiation, with any constructor exception re-raised as
a located `CabinetConfigError` carrying the original message. -/
def get_handler (env : PyEnv) (kp : String) (t : CTree) : Except PyError PyObj :=
  match getHandlerStages env kp t with
  | .error e => .error e
  | .ok (ty, kwargs) =>
    match ty.ctor kwargs with
    | .error e =>
      .error (.cabinetConfigError
        ("Pyramid settings bad args for " ++ kp ++ ".handler: " ++ e.msg))
    | .ok h => .ok h

/- ### The storage container and store setup. -/

/-- Modelled from the spec: the `StorageContainer` collaborator (its
source file, `storage_container.py`, is not in the repository
snapshot).  Per spec.md sections 3 and 6 it "holds at most one handler
instance (or none)", is "addressable by name to obtain/create nested
child containers on demand", and has a separate finalize step the
engine never calls.  `handler = none` means the slot was never
assigned; `handler = some none` means it was explicitly set to absent
(`store.handler = None`).  `finalized` records the finalize step; no
engine operation touches it. -/
inductive Store where
  | node (handler : Option (Option PyObj)) (finalized : Bool) (children : List (String × Store))

/-- The handler slot. -/
def Store.handler : Store → Option (Option PyObj)
  | .node h _ _ => h

/-- Whether `finalize` was ever invoked. -/
def Store.finalized : Store → Bool
  | .node _ f _ => f

/-- The named child containers, in creation order. -/
def Store.children : Store → List (String × Store)
  | .node _ _ c => c

/-- A fresh container. -/
def emptyStore : Store := .node none false []

/-- `store[name]` per the spec contract: the existing child or a fresh
one. -/
def Store.childNamed (s : Store) (name : String) : Store :=
  (alookup s.children name).getD emptyStore

/-- Write back an updated child container. -/
def Store.setChild (s : Store) (name : String) (c : Store) : Store :=
  .node s.handler s.finalized (aupsert s.children name c)

/-- Set the handler slot (`store.handler = handler`). -/
def Store.setHandler (s : Store) (h : Option PyObj) : Store :=
  .node (some h) s.finalized s.children

/-- The sub-container name extracted at config_utils.py line 148:
`key.lstrip("[").rstrip("]").strip(QUOTE).strip(APOSTROPHE)`. -/
def subStoreName (key : String) : String :=
  pyStripChar (pyStripChar (pyRstrip (pyLstrip key '[') ']') dquoteChar) squoteChar

/-- The handler-resolution stage of `setup_store` (config_utils.py
lines 129-141): read `settings_dict["handler"][None]` (either missing
key is the caught `KeyError`, reported as the located "has no key"
config error), treat the case-insensitive literal `none` as an absent
handler without any type resolution, and otherwise build the handler
from the `handler` sub-tree. -/
def resolveHandler (env : PyEnv) (kp : String) (name : String) (t : CTree) : Except PyError (Option PyObj) :=
  match (alookup t.children "handler").bind CTree.leaf with
  | none =>
    .error (.cabinetConfigError
      ("Pyramid settings has no key for " ++ kp ++ name ++ ".handler"))
  | some handlerClassName =>
    if pyLower handlerClassName = "none" then .ok none
    else
      match get_handler env (kp ++ name) ((alookup t.children "handler").getD emptyTree) with
      | .error e => .error e
      | .ok h => .ok (some h)

/-- `sizeOf` of a filtered list never exceeds that of the list (used
for the termination of the mutually recursive store walk). -/
theorem sizeOf_filter_le {α : Type} [SizeOf α] (p : α → Bool) (l : List α) :
    sizeOf (l.filter p) ≤ sizeOf l := by
  induction l with
  | nil => simp
  | cons a rest ih =>
    simp only [List.filter]
    cases p a <;> simp <;> omega

/-- The children list of a node is structurally smaller than the node. -/
theorem CTree.sizeOf_children_lt (t : CTree) : sizeOf t.children < sizeOf t := by
  cases t with
  | node l c => simp [CTree.children]

mutual

/-- Source: `setup_store` (config_utils.py lines 107-158).  The handler
is resolved first and assigned to the container *before* any nested
sub-store entry is examined; then the remaining entries (the settings
dict minus the popped `handler` key, in order) are walked.  Mutation is
modelled by returning the updated container together with the exception
(if any) in flight when control left the function: an error return
still carries every mutation made before the error was raised. -/
def setup_store (env : PyEnv) (store : Store) (kp : String) (name : String) (t : CTree) : Store × Option PyError :=
  match resolveHandler env kp name t with
  | .error e => (store, some e)
  | .ok handler =>
    let store1 := store.setHandler handler
    setupSubs env store1 kp (t.children.filter (fun kv => kv.1 ≠ "handler"))
termination_by (sizeOf t, 0)
decreasing_by
  have h1 : sizeOf (t.children.filter (fun kv => decide (kv.1 ≠ "handler"))) ≤ sizeOf t.children :=
    sizeOf_filter_le _ _
  have h2 : sizeOf t.children < sizeOf t := CTree.sizeOf_children_lt t
  simp only [Prod.lex_def]
  omega

/-- The sub-store loop of `setup_store` (config_utils.py lines
146-158): bracket-shaped keys recurse into the named child container
(note the source passes `key_prefix + key` down and the callee appends
its `name` again for its own messages); any other key raises the
located "unknown key" config error. -/
def setupSubs (env : PyEnv) (store : Store) (kp : String) : List (String × CTree) → Store × Option PyError
  | [] => (store, none)
  | (key, subConfig) :: rest =>
    if pyStartsWith key "[" && pyEndsWith key "]" then
      let (child, err) := setup_store env (store.childNamed (subStoreName key)) (kp ++ key) key subConfig
      let store2 := store.setChild (subStoreName key) child
      match err with
      | some e => (store2, some e)
      | none => setupSubs env store2 kp rest
    else
      (store, some (.cabinetConfigError
        ("Pyramid settings unknown key " ++ kp ++ "." ++ key)))
termination_by l => (sizeOf l, 1)
decreasing_by
  all_goals
    simp only [Prod.lex_def]
    simp
    try omega

end

/-- Python truthiness of the dict returned by `get_keys_from`. -/
def CTree.isEmptyDict (t : CTree) : Bool :=
  t.leaf.isNone && t.children.isEmpty

/-- Source: `setup_from_settings` (config_utils.py lines 70-104):
extract the prefixed slice as a nested tree; if it is empty, set the
container handler to absent and report `false`; otherwise run
`setup_store` on it and report `true`.  As with `setup_store`, the
updated container is returned alongside the outcome so that mutations
survive an error. -/
def setup_from_settings (env : PyEnv) (settings : List (String × String)) (store : Store)
    (kp : String := "store") : Store × Except PyError Bool :=
  let settingsDict := get_keys_from kp settings
  if settingsDict.isEmptyDict then
    (store.setHandler none, .ok false)
  else
    match setup_store env store kp "" settingsDict with
    | (store2, some e) => (store2, .error e)
    | (store2, none) => (store2, .ok true)

/- ### Shared lemmas about the container and the store walk. -/

/-- Setting a child leaves the handler slot alone. -/
theorem Store.handler_setChild (s : Store) (n : String) (c : Store) :
    (s.setChild n c).handler = s.handler := by
  cases s; rfl

/-- Setting the handler fills the slot. -/
theorem Store.handler_setHandler (s : Store) (h : Option PyObj) :
    (s.setHandler h).handler = some h := by
  cases s; rfl

/-- Setting the handler does not finalize. -/
theorem Store.finalized_setHandler (s : Store) (h : Option PyObj) :
    (s.setHandler h).finalized = s.finalized := by
  cases s; rfl

/-- The sub-store loop never touches the handler slot of the container
it was given: it only creates or updates named children. -/
theorem setupSubs_handler (env : PyEnv) (kp : String) :
    ∀ (l : List (String × CTree)) (s : Store), (setupSubs env s kp l).1.handler = s.handler := by
  intro l
  induction l with
  | nil => intro s; simp [setupSubs]
  | cons kv rest ih =>
    intro s
    obtain ⟨key, sub⟩ := kv
    rw [setupSubs]
    by_cases hb : (pyStartsWith key "[" && pyEndsWith key "]") = true
    · simp only [hb, if_true]
      obtain ⟨child, err⟩ := setup_store env (s.childNamed (subStoreName key)) (kp ++ key) key sub
      cases err with
      | some e => simp [Store.handler_setChild]
      | none => simp [ih, Store.handler_setChild]
    · simp [hb]

/-- Once the handler stage of `setup_store` has produced a handler, the
container's handler slot holds exactly that handler in the returned
container — whether or not the rest of the walk errors. -/
theorem setup_store_handler_of_resolve (env : PyEnv) (store : Store) (kp name : String)
    (t : CTree) (h : Option PyObj) (hres : resolveHandler env kp name t = .ok h) :
    (setup_store env store kp name t).1.handler = some h := by
  rw [setup_store, hres]
  simp only
  rw [setupSubs_handler]
  exact Store.handler_setHandler store h

/-- An environment with no importable modules and a close-match oracle
that finds nothing, for concrete instantiations. -/
def trivEnv : PyEnv := ⟨[], .obj, fun _ _ => none⟩

/-- Folding keys none of which matches the prefix builds nothing. -/
theorem foldl_no_match (pfx : String) :
    ∀ (l : List (String × String)),
      (∀ kv ∈ l, pyStartsWith kv.1 (pfx ++ ".") = false ∧ pyStartsWith kv.1 (pfx ++ "[") = false) →
      l.foldl
        (fun acc kv =>
          if pyStartsWith kv.1 (pfx ++ ".") || pyStartsWith kv.1 (pfx ++ "[") then
            set_nested_value kv.1 kv.2 acc
          else acc)
        emptyTree = emptyTree
  | [], _ => rfl
  | kv :: rest, h => by
    have h1 := h kv (List.mem_cons_self _ _)
    simp only [List.foldl_cons]
    rw [if_neg (by simp [h1.1, h1.2])]
    exact foldl_no_match pfx rest (fun kv2 hm => h kv2 (List.mem_cons_of_mem _ hm))

/-- C3: a prefix with no matching key (no key starts with `<prefix>.`
nor with `<prefix>[`) makes the setup entry point return the boolean
`false` ("not configured"), set the container's handler slot to absent,
leave the finalized flag untouched, and raise nothing (the result is a
normal return, not an exception). -/
theorem setup_unmatched_not_configured (env : PyEnv) (settings : List (String × String))
    (store : Store) (pfx : String)
    (h : ∀ kv ∈ settings, pyStartsWith kv.1 (pfx ++ ".") = false ∧ pyStartsWith kv.1 (pfx ++ "[") = false) :
    setup_from_settings env settings store pfx = (store.setHandler none, .ok false)
      ∧ (store.setHandler none).handler = some none
      ∧ (store.setHandler none).finalized = store.finalized := by
  refine ⟨?_, Store.handler_setHandler store none, Store.finalized_setHandler store none⟩
  have hfold := foldl_no_match pfx settings h
  simp only [setup_from_settings, get_keys_from, hfold]
  rfl

/-- Witness for C3 at a concrete unmatched settings map. -/
theorem setup_unmatched_not_configured_witness :
    (∀ kv ∈ [("other.x", "1")], (pyStartsWith kv.1 "store." = false ∧ pyStartsWith kv.1 "store[" = false))
      ∧ setup_from_settings trivEnv [("other.x", "1")] emptyStore "store"
          = (emptyStore.setHandler none, .ok false) := by
  refine ⟨by decide, ?_⟩
  exact (setup_unmatched_not_configured trivEnv [("other.x", "1")] emptyStore "store" (by decide)).1

/-- C6: whenever the `handler` leaf of a store's sub-tree lowercases to
the literal `none`, the walk sets that container's handler slot to
explicitly absent — for *every* environment, in particular ones in which
no module (and hence no type named "none", "None", ...) is importable
at all, which is the formal counterpart of "never attempting type
resolution on that value"; and end to end, a settings map configuring
just such a handler still reports configured (`true`). -/
theorem handler_none_literal_disables (env : PyEnv) :
    (∀ (store : Store) (kp name : String) (t : CTree) (v : String),
        (alookup t.children "handler").bind CTree.leaf = some v →
        pyLower v = "none" →
        (setup_store env store kp name t).1.handler = some none)
    ∧ ∀ (store : Store) (v : String), pyLower (pyStrip v) = "none" →
        setup_from_settings env [("store.handler", v)] store "store"
          = (store.setHandler none, .ok true) := by
  have hres : ∀ (kp name : String) (t : CTree) (v : String),
      (alookup t.children "handler").bind CTree.leaf = some v →
      pyLower v = "none" →
      resolveHandler env kp name t = .ok none := by
    intro kp name t v hlookup hv
    simp only [resolveHandler, hlookup, hv, if_true]
  constructor
  · intro store kp name t v hlookup hv
    exact setup_store_handler_of_resolve env store kp name t none (hres kp name t v hlookup hv)
  · intro store v hv
    have htree : get_keys_from "store" [("store.handler", v)]
        = CTree.node none [("handler", CTree.node (some (pyStrip v)) [])] := rfl
    have hr : resolveHandler env "store" ""
        (CTree.node none [("handler", CTree.node (some (pyStrip v)) [])]) = .ok none :=
      hres "store" "" _ (pyStrip v) rfl hv
    simp only [setup_from_settings, htree]
    rw [if_neg (by simp [CTree.isEmptyDict, CTree.leaf, CTree.children, List.isEmpty])]
    rw [setup_store, hr]
    simp only
    have hfilter : (CTree.node none [("handler", CTree.node (some (pyStrip v)) [])]).children.filter
        (fun kv => kv.1 ≠ "handler") = [] := rfl
    rw [hfilter, setupSubs]

/-- Witness for C6: the mixed-case literal disables the store under the
environment with no importable modules. -/
theorem handler_none_literal_disables_witness :
    pyLower (pyStrip "NoNe") = "none"
      ∧ setup_from_settings trivEnv [("store.handler", "NoNe")] emptyStore "store"
          = (emptyStore.setHandler none, .ok true) :=
  ⟨by decide, (handler_none_literal_disables trivEnv).2 emptyStore "NoNe" (by decide)⟩

/-- C10: the handler assignment of `setup_store` (config_utils.py line
143) happens before the nested sub-container loop (lines 146-158), so
once the handler stage has produced a handler, the returned container
carries it — with no condition on the outcome of the walk, so in
particular when a nested sub-container raises and the error propagates,
and the claim's error case is restated explicitly in the second
conjunct. -/
theorem setup_store_not_atomic :
    (∀ (env : PyEnv) (store : Store) (kp name : String) (t : CTree) (h : Option PyObj),
        resolveHandler env kp name t = .ok h →
        (setup_store env store kp name t).1.handler = some h)
    ∧ ∀ (env : PyEnv) (store : Store) (kp name : String) (t : CTree) (h : Option PyObj) (e : PyError),
        resolveHandler env kp name t = .ok h →
        (setup_store env store kp name t).2 = some e →
        (setup_store env store kp name t).1.handler = some h :=
  ⟨fun env store kp name t h hres => setup_store_handler_of_resolve env store kp name t h hres,
   fun env store kp name t h _ hres _ => setup_store_handler_of_resolve env store kp name t h hres⟩

/-- The `StorageHandlerBase` stand-in for concrete instantiations:
`__init__(self, filters, **kwargs)`. -/
def handlerBaseCls : PyClass := .cls [⟨"self", false⟩, ⟨"filters", false⟩, ⟨"kwargs", true⟩] .obj

/-- A concrete handler class: `__init__(self, base_url, **kwargs)`,
deriving from the handler base. -/
def dummyHandlerCls : PyClass :=
  .cls [⟨"self", false⟩, ⟨"base_url", false⟩, ⟨"kwargs", true⟩] handlerBaseCls

/-- A concrete filter class: `__init__(self, extensions)`. -/
def extFilterCls : PyClass := .cls [⟨"self", false⟩, ⟨"extensions", false⟩] .obj

/-- A second concrete filter class: `__init__(self)`. -/
def randFilterCls : PyClass := .cls [⟨"self", false⟩] .obj

/-- An environment with a working handler type and two working filter
types, for concrete instantiations. -/
def envOk : PyEnv :=
  ⟨[("cabinet.handlers", [("Dummy", ⟨dummyHandlerCls, fun _ => .ok ⟨"dummy"⟩⟩)]),
    ("cabinet.filters",
      [("Randomize", ⟨randFilterCls, fun _ => .ok ⟨"rand"⟩⟩),
       ("ValidateExt", ⟨extFilterCls, fun _ => .ok ⟨"vext"⟩⟩)])],
    handlerBaseCls, fun _ _ => none⟩

/-- A settings tree whose root handler resolves but whose nested
sub-container is missing its own `handler` key. -/
def treeNestedBad : CTree :=
  .node none
    [("handler", .node (some "Dummy") []),
     ("['a']", .node none [("x", .node (some "1") [])])]

/-- Witness for C10: the nested entry errors, yet the returned parent
container already holds the resolved handler. -/
theorem setup_store_not_atomic_witness :
    (setup_store envOk emptyStore "store" "" treeNestedBad).1.handler = some (some ⟨"dummy"⟩)
      ∧ (setup_store envOk emptyStore "store" "" treeNestedBad).2
          = some (.cabinetConfigError "Pyramid settings has no key for store['a']['a'].handler") := by
  constructor
  · exact setup_store_not_atomic.1 envOk emptyStore "store" "" treeNestedBad (some ⟨"dummy"⟩) rfl
  · rw [setup_store]
    rw [show resolveHandler envOk "store" "" treeNestedBad = .ok (some ⟨"dummy"⟩) from rfl]
    simp only
    rw [show treeNestedBad.children.filter (fun kv => kv.1 ≠ "handler")
          = [("['a']", CTree.node none [("x", CTree.node (some "1") [])])] from rfl]
    rw [setupSubs]
    rw [if_pos (by decide)]
    rw [setup_store]
    rw [show resolveHandler envOk ("store" ++ "['a']") "['a']"
          (CTree.node none [("x", CTree.node (some "1") [])])
        = .error (.cabinetConfigError "Pyramid settings has no key for store['a']['a'].handler")
      from rfl]

/-- A wrapped constructor error is never the original error: the
wrapping prefix is nonempty, so even an original `CabinetConfigError`
cannot coincide with its own wrapping. -/
theorem wrapped_config_error_ne (pre : String) (hpre : 0 < pre.length) (e : PyError) :
    PyError.cabinetConfigError (pre ++ e.msg) ≠ e := by
  intro hEq
  cases e with
  | cabinetConfigError m =>
    have hm : pre ++ m = m := by
      simpa [PyError.msg] using hEq
    have := congrArg String.length hm
    rw [String.length_append] at this
    omega
  | valueError m => simp at hEq
  | typeError m => simp at hEq
  | keyError m => simp at hEq
  | indexError m => simp at hEq
  | attributeError m => simp at hEq
  | nameError m => simp at hEq
  | syntaxError m => simp at hEq

/-- C9: in both builders, when the stages before instantiation have
succeeded and the resolved type's constructor raises, the builder
returns a located `CabinetConfigError` whose message carries the key
path and the original message — and never the original exception
itself, whatever it was. -/
theorem ctor_errors_wrapped :
    (∀ (env : PyEnv) (kp : String) (t : CTree) (ty : PyType)
        (kwargs : List (String × ArgVal)) (e : PyError),
        getHandlerStages env kp t = .ok (ty, kwargs) →
        ty.ctor kwargs = .error e →
        get_handler env kp t
            = .error (.cabinetConfigError
                ("Pyramid settings bad args for " ++ kp ++ ".handler: " ++ e.msg))
          ∧ get_handler env kp t ≠ .error e)
    ∧ ∀ (env : PyEnv) (kp : String) (t : CTree) (fname : String) (ty : PyType)
        (kwargs : List (String × ArgVal)) (e : PyError),
        t.leaf = some fname →
        try_import env "cabinet.filters" fname = .ok ty →
        decodeAllKwargs t.children = .ok kwargs →
        ty.ctor kwargs = .error e →
        get_filter env kp t
            = .error (.cabinetConfigError
                ("Pyramid settings bad args for " ++ kp ++ ": " ++ e.msg))
          ∧ get_filter env kp t ≠ .error e := by
  constructor
  · intro env kp t ty kwargs e hstages hctor
    have heq : get_handler env kp t
        = .error (.cabinetConfigError
            ("Pyramid settings bad args for " ++ kp ++ ".handler: " ++ e.msg)) := by
      simp only [get_handler, hstages, hctor]
    refine ⟨heq, ?_⟩
    rw [heq]
    intro hbad
    have hne := wrapped_config_error_ne ("Pyramid settings bad args for " ++ kp ++ ".handler: ")
      (by
        simp only [String.length_append]
        have h10 : 0 < ".handler: ".length := by decide
        omega) e
    exact hne (by simpa [String.append_assoc] using (Except.error.inj hbad))
  · intro env kp t fname ty kwargs e hleaf himp hdec hctor
    have heq : get_filter env kp t
        = .error (.cabinetConfigError
            ("Pyramid settings bad args for " ++ kp ++ ": " ++ e.msg)) := by
      simp only [get_filter, hleaf, himp, hdec, hctor]
    refine ⟨heq, ?_⟩
    rw [heq]
    intro hbad
    have hne := wrapped_config_error_ne ("Pyramid settings bad args for " ++ kp ++ ": ")
      (by
        simp only [String.length_append]
        have h2 : 0 < ": ".length := by decide
        omega) e
    exact hne (by simpa [String.append_assoc] using (Except.error.inj hbad))

/-- A handler type whose constructor always raises `TypeError`. -/
def failHandlerTy : PyType := ⟨dummyHandlerCls, fun _ => .error (.typeError "boom")⟩

/-- A filter type whose constructor always raises `RuntimeError`-style
text (modelled as a `TypeError` carrier). -/
def failFilterTy : PyType := ⟨randFilterCls, fun _ => .error (.typeError "fboom")⟩

/-- An environment whose component constructors raise. -/
def envCtorFail : PyEnv :=
  ⟨[("cabinet.handlers", [("Dummy", failHandlerTy)]),
    ("cabinet.filters", [("Randomize", failFilterTy)])],
    handlerBaseCls, fun _ _ => none⟩

/-- Witness for C9 at concrete always-raising constructors. -/
theorem ctor_errors_wrapped_witness :
    get_handler envCtorFail "store" (.node (some "Dummy") [])
        = .error (.cabinetConfigError "Pyramid settings bad args for store.handler: boom")
      ∧ get_filter envCtorFail "store.handler.filters[0]" (.node (some "Randomize") [])
          = .error (.cabinetConfigError
              "Pyramid settings bad args for store.handler.filters[0]: fboom") := by
  constructor
  · exact (ctor_errors_wrapped.1 envCtorFail "store" (.node (some "Dummy") [])
      failHandlerTy [] (.typeError "boom") rfl rfl).1
  · exact (ctor_errors_wrapped.2 envCtorFail "store.handler.filters[0]" (.node (some "Randomize") [])
      "Randomize" failFilterTy [] (.typeError "fboom") rfl rfl rfl rfl).1

/-- An environment in which the default handler module is importable
but empty. -/
def envEmptyHandlers : PyEnv := ⟨[("cabinet.handlers", [])], handlerBaseCls, fun _ _ => none⟩

/-- Counterexample to C4: the namespace-missing case and the
name-missing case produce the *same* located config error, whose
message does not contain the raw type name that failed to resolve. -/
theorem type_resolution_error_counterexample :
    get_handler trivEnv "store" (.node (some "NoSuchHandler") [])
        = .error (.cabinetConfigError "Pyramid settings bad value for store.handler")
      ∧ get_handler envEmptyHandlers "store" (.node (some "NoSuchHandler") [])
          = .error (.cabinetConfigError "Pyramid settings bad value for store.handler")
      ∧ strContains "Pyramid settings bad value for store.handler" "NoSuchHandler" = false :=
  ⟨rfl, rfl, by decide⟩

/-- C4 amended: `try_import` itself distinguishes "module not
installed" from "bad class name" in the `ValueError` it raises, but the
builders collapse both into one located config error that names the key
path and not the raw type name. -/
theorem type_resolution_error_amended :
    (∀ (env : PyEnv) (dm model : String),
        alookup env.modules
            (if (rpartitionDot model).1 = "" then dm else (rpartitionDot model).1) = none →
        try_import env dm model = .error (.valueError "module not installed"))
    ∧ (∀ (env : PyEnv) (dm model : String) (attrs : List (String × PyType)),
        alookup env.modules
            (if (rpartitionDot model).1 = "" then dm else (rpartitionDot model).1) = some attrs →
        alookup attrs (rpartitionDot model).2 = none →
        try_import env dm model = .error (.valueError "bad class name"))
    ∧ (∀ (env : PyEnv) (kp : String) (t : CTree) (hname m : String),
        t.leaf = some hname →
        try_import env "cabinet.handlers" hname = .error (.valueError m) →
        get_handler env kp t
          = .error (.cabinetConfigError ("Pyramid settings bad value for " ++ kp ++ ".handler")))
    ∧ ∀ (env : PyEnv) (kp : String) (t : CTree) (fname m : String),
        t.leaf = some fname →
        try_import env "cabinet.filters" fname = .error (.valueError m) →
        get_filter env kp t
          = .error (.cabinetConfigError ("Pyramid settings bad value for " ++ kp)) := by
  refine ⟨?_, ?_, ?_, ?_⟩
  · intro env dm model h
    simp only [try_import, h]
  · intro env dm model attrs h1 h2
    simp only [try_import, h1, h2]
  · intro env kp t hname m hleaf himp
    simp only [get_handler, getHandlerStages, hleaf, himp, String.append_assoc]
  · intro env kp t fname m hleaf himp
    simp only [get_filter, hleaf, himp]

/-- Witness for C4's amended statement at the two concrete failure
environments. -/
theorem type_resolution_error_amended_witness :
    try_import trivEnv "cabinet.handlers" "NoSuchHandler" = .error (.valueError "module not installed")
      ∧ try_import envEmptyHandlers "cabinet.handlers" "NoSuchHandler"
          = .error (.valueError "bad class name")
      ∧ get_filter envEmptyHandlers "store.handler.filters[0]" (.node (some "NoSuchFilter") [])
          = .error (.cabinetConfigError "Pyramid settings bad value for store.handler.filters[0]") :=
  ⟨type_resolution_error_amended.1 trivEnv "cabinet.handlers" "NoSuchHandler" rfl,
   type_resolution_error_amended.2.1 envEmptyHandlers "cabinet.handlers" "NoSuchHandler" [] rfl rfl,
   type_resolution_error_amended.2.2.2 envEmptyHandlers "store.handler.filters[0]"
     (.node (some "NoSuchFilter") []) "NoSuchFilter" "module not installed" rfl rfl⟩

/-- A string occurs as a substring of any text that splices it in the
middle. -/
theorem strContains_append_middle (a s b : String) :
    strContains (a ++ s ++ b) s = true := by
  unfold strContains
  rw [List.any_eq_true]
  refine ⟨s.data ++ b.data, ?_, ?_⟩
  · rw [List.mem_tails]
    have hdata : (a ++ s ++ b).data = a.data ++ (s.data ++ b.data) := by
      show (a.data ++ s.data) ++ b.data = a.data ++ (s.data ++ b.data)
      exact List.append_assoc a.data s.data b.data
    rw [hdata]
    exact List.suffix_append a.data (s.data ++ b.data)
  · rw [List.isPrefixOf_iff_prefix]
    exact List.prefix_append s.data b.data

/-- Counterexample to C5: the bracket branch of the decoder is not a
literal-only evaluator — it evaluates the expression `[1+1]` to the
list `[2]`, while the specification's literal-only evaluator (no
expression execution) rejects that input. -/
theorem eval_not_literal_only_counterexample :
    decode_kwarg (.str "[1+1]") = .ok (.list [.int 2])
      ∧ literalOnlyEval "[1+1]" = .error (.syntaxError "malformed literal") :=
  ⟨rfl, rfl⟩

/-- C5 amended: the bracket branch evaluates its input as a general
expression under empty globals and locals (expressions execute, not
only structured literals), and every evaluation failure is re-raised as
a `CabinetConfigError` whose message carries the offending text. -/
theorem eval_based_decoder_amended :
    decode_kwarg (.str "[1+1]") = .ok (.list [.int 2])
    ∧ ∀ (s : String) (e : PyError),
        ((pyStartsWith s "[" && pyEndsWith s "]")
          || (pyStartsWith s "\x7b" && pyEndsWith s "\x7d")) = true →
        pyEval s = .error e →
        decodeStr s
            = .error (.cabinetConfigError ("Pyramid settings bad value " ++ s ++ ": " ++ e.msg))
          ∧ strContains ("Pyramid settings bad value " ++ s ++ ": " ++ e.msg) s = true := by
  refine ⟨rfl, ?_⟩
  intro s e hbr heval
  constructor
  · simp only [decodeStr, hbr, if_true, heval]
  · have h := strContains_append_middle "Pyramid settings bad value " s (": " ++ e.msg)
    calc strContains ("Pyramid settings bad value " ++ s ++ ": " ++ e.msg) s
        = strContains ("Pyramid settings bad value " ++ s ++ (": " ++ e.msg)) s := by
          rw [String.append_assoc]
      _ = true := h

/-- Witness for C5's amended statement: a malformed bracket value is
wrapped into a config error that carries it. -/
theorem eval_based_decoder_amended_witness :
    decodeStr "[oops]"
        = .error (.cabinetConfigError "Pyramid settings bad value [oops]: name oops is not defined")
      ∧ strContains "Pyramid settings bad value [oops]: name oops is not defined" "[oops]" = true := by
  have h := eval_based_decoder_amended.2 "[oops]" (.nameError "name oops is not defined")
    (by decide) rfl
  exact ⟨h.1, h.2⟩

/-- The big-endian digit fold over digit characters, in `Nat`,
computes the number with those decimal digits (little-endian via
`Nat.ofDigits`). -/
theorem foldl_digits_eq_ofDigits (l : List Char) (h : ∀ c ∈ l, c.isDigit = true) :
    ∀ acc : Nat,
      l.foldl (fun a c => 10 * a + c.toNat - '0'.toNat) acc
        = Nat.ofDigits 10 ((l.map (fun c => c.toNat - '0'.toNat)).reverse) + acc * 10 ^ l.length := by
  induction l with
  | nil => intro acc; simp [Nat.ofDigits]
  | cons c l ih =>
    intro acc
    have hc := h c (List.mem_cons_self _ _)
    have hge : '0'.toNat ≤ c.toNat := by
      simp [Char.isDigit] at hc
      exact hc.1
    rw [List.foldl_cons]
    rw [ih (fun x hx => h x (List.mem_cons_of_mem _ hx)) (10 * acc + c.toNat - '0'.toNat)]
    rw [List.map_cons, List.reverse_cons, Nat.ofDigits_append]
    have hsub : 10 * acc + c.toNat - '0'.toNat = 10 * acc + (c.toNat - '0'.toNat) := by omega
    rw [hsub]
    simp only [Nat.ofDigits_singleton, List.length_reverse, List.length_map, List.length_cons,
      Nat.cast_id]
    ring

/-- The decoder runs the same fold in `Int` (the decoded literal is an
integer); over digit characters it agrees with the `Nat` fold. -/
theorem foldl_digits_int_eq_natCast (l : List Char) (h : ∀ c ∈ l, c.isDigit = true) :
    ∀ acc : Nat,
      l.foldl (fun (a : Int) c => 10 * a + (c.toNat : Int) - ('0'.toNat : Int)) (acc : Int)
        = ((l.foldl (fun a c => 10 * a + c.toNat - '0'.toNat) acc : Nat) : Int) := by
  induction l with
  | nil => intro acc; rfl
  | cons c l ih =>
    intro acc
    have hc := h c (List.mem_cons_self _ _)
    have hge : '0'.toNat ≤ c.toNat := by
      simp [Char.isDigit] at hc
      exact hc.1
    rw [List.foldl_cons, List.foldl_cons]
    have hcast : 10 * (acc : Int) + (c.toNat : Int) - ('0'.toNat : Int)
        = ((10 * acc + c.toNat - '0'.toNat : Nat) : Int) := by omega
    rw [hcast]
    exact ih (fun x hx => h x (List.mem_cons_of_mem _ hx)) _

/-- Counterexample to C8: on the empty string the decoder raises an
(uncaught) `IndexError` from `unquote` rather than returning the string
unchanged, and on the one-character string consisting of a single
apostrophe — which is not wrapped in a *pair* of quotes — it strips
that lone character and returns the empty string. -/
theorem decode_plain_counterexample :
    decode_kwarg (.str "") = .error (.indexError "string index out of range")
      ∧ decode_kwarg (.str (String.mk [squoteChar])) = .ok (.str "") :=
  ⟨rfl, rfl⟩

/-- C8 amended: for nonempty strings the claimed branch behaviour
holds — quote characters at both ends (first equal to last, which for a
one-character quote string means itself) are stripped, all-digit
strings decode to the decimal value of their digits, and everything
else is returned unchanged — while the empty string raises `IndexError`
from `value[0]`. -/
theorem decode_plain_amended :
    (∀ (s : String) (c : Char) (cs : List Char),
        s.data = c :: cs →
        ((pyStartsWith s "[" && pyEndsWith s "]")
          || (pyStartsWith s "\x7b" && pyEndsWith s "\x7d")) = false →
        pyIsDigit s = false →
        ((c = dquoteChar ∨ c = squoteChar) ∧ c = cs.getLastD c →
            decodeStr s = .ok (.str (String.mk cs.dropLast)))
          ∧ (¬((c = dquoteChar ∨ c = squoteChar) ∧ c = cs.getLastD c) →
            decodeStr s = .ok (.str s)))
    ∧ (∀ s : String,
        ((pyStartsWith s "[" && pyEndsWith s "]")
          || (pyStartsWith s "\x7b" && pyEndsWith s "\x7d")) = false →
        pyIsDigit s = true →
        decodeStr s
          = .ok (.int ((Nat.ofDigits 10 ((s.data.map (fun c => c.toNat - '0'.toNat)).reverse) : Nat) : Int)))
    ∧ decodeStr "" = .error (.indexError "string index out of range") := by
  refine ⟨?_, ?_, rfl⟩
  · intro s c cs hdata hbr hdig
    constructor
    · intro hq
      simp only [decodeStr, hbr, Bool.false_eq_true, if_false, hdig, unquote, hdata]
      rw [if_pos hq]
    · intro hq
      simp only [decodeStr, hbr, Bool.false_eq_true, if_false, hdig, unquote, hdata]
      rw [if_neg hq]
  · intro s hbr hdig
    have hall : ∀ c ∈ s.data, c.isDigit = true := by
      simp only [pyIsDigit, Bool.and_eq_true, List.all_eq_true] at hdig
      exact fun c hc => hdig.2 c hc
    simp only [decodeStr, hbr, Bool.false_eq_true, if_false, hdig, if_true]
    have h0 := foldl_digits_int_eq_natCast s.data hall 0
    rw [show ((0 : Nat) : Int) = (0 : Int) from rfl] at h0
    rw [h0, foldl_digits_eq_ofDigits s.data hall 0]
    simp

/-- Witness for C8's amended statement at a quoted, a plain, and an
all-digit value. -/
theorem decode_plain_amended_witness :
    decodeStr "\"quoted\"" = .ok (.str "quoted")
      ∧ decodeStr "plain" = .ok (.str "plain")
      ∧ decodeStr "123" = .ok (.int 123) := by
  refine ⟨?_, ?_, ?_⟩
  · have h := (decode_plain_amended.1 "\"quoted\"" dquoteChar ("quoted\"").data
      rfl (by decide) (by decide)).1 (by decide)
    rw [h]
    rfl
  · exact (decode_plain_amended.1 "plain" 'p' ("lain").data rfl (by decide) (by decide)).2
      (by decide)
  · have h := decode_plain_amended.2.1 "123" (by decide) (by decide)
    have hv : (Nat.ofDigits 10 (List.map (fun c => c.toNat - '0'.toNat) ("123").data).reverse : Nat)
        = 123 := by decide
    rw [h, hv]
    rfl

/-- The prefix of the linearized ancestry that `get_init_properties`
walks: the class itself, then each successive ancestor for as long as
the next ancestor is a subclass of the stop-class. -/
def collectedAncestry : PyClass → PyClass → List PyClass
  | .obj, _ => [.obj]
  | .cls ps p, toClass =>
    .cls ps p :: (if issubclass p toClass then collectedAncestry p toClass else [])

/-- Membership in the per-class parameter-name set built by
`get_init_properties` (signature names minus `self` and minus any
`**kwargs` collector). -/
theorem mem_own_params (c : PyClass) (x : String) :
    x ∈ ((c.sigParams.filter
        (fun p => !p.isVarKeyword && p.name ≠ "self")).map PyParam.name).toFinset
      ↔ ∃ p ∈ c.sigParams, p.name = x ∧ p.isVarKeyword = false ∧ x ≠ "self" := by
  rw [List.mem_toFinset, List.mem_map]
  constructor
  · rintro ⟨p, hp, hname⟩
    rw [List.mem_filter] at hp
    have hcond := hp.2
    simp only [Bool.and_eq_true, Bool.not_eq_true', decide_eq_true_eq] at hcond
    exact ⟨p, hp.1, hname, hcond.1, hname ▸ hcond.2⟩
  · rintro ⟨p, hp, hname, hvk, hself⟩
    refine ⟨p, ?_, hname⟩
    rw [List.mem_filter]
    refine ⟨hp, ?_⟩
    simp only [Bool.and_eq_true, Bool.not_eq_true', decide_eq_true_eq]
    exact ⟨hvk, hname ▸ hself⟩

/-- The root class is in every linearized ancestry. -/
theorem obj_mem_mro : ∀ c : PyClass, .obj ∈ c.mro
  | .obj => List.mem_singleton.mpr rfl
  | .cls _ p => List.mem_cons_of_mem _ (obj_mem_mro p)

/-- The root class subclasses only itself. -/
theorem issubclass_obj_left (d : PyClass) : issubclass .obj d = true ↔ d = .obj := by
  simp [issubclass, PyClass.mro]

/-- Every class subclasses the root class. -/
theorem issubclass_obj_right (c : PyClass) : issubclass c .obj = true := by
  simp only [issubclass, decide_eq_true_eq]
  exact obj_mem_mro c

/-- Counterexample to C7: the introspector does not return a parameter
set for every component type and stop-class — invoked on the root class
it raises the uncaught `IndexError` of `cls.mro()[1]`, and with the
root class `object` as the stop-class (the declared default of the
parameter) the walk always reaches the root class and raises the same
`IndexError`, here shown on both concrete classes of the hierarchy. -/
theorem get_init_properties_root_counterexample :
    get_init_properties .obj handlerBaseCls = .error (.indexError "list index out of range")
      ∧ get_init_properties dummyHandlerCls .obj = .error (.indexError "list index out of range")
      ∧ get_init_properties handlerBaseCls .obj = .error (.indexError "list index out of range") :=
  ⟨rfl, rfl, rfl⟩

/-- C7 amended: for every component type other than the root class and
every stop-class other than the root class `object`, the introspector
returns exactly the union, over the walked ancestry prefix (stopping as
soon as the next ancestor is not a subclass of the stop-class), of the
declared constructor parameter names, with `self` and every variadic
keyword collector excluded — and `self` is never in the result; but
invoked on the root class itself it raises the uncaught `IndexError`
of `cls.mro()[1]`, and with `object` as the stop-class the walk always
reaches the root class and raises that same `IndexError`. -/
theorem get_init_properties_amended :
    (∀ (toClass : PyClass), toClass ≠ .obj → ∀ (c : PyClass), c ≠ .obj →
      ∃ s, get_init_properties c toClass = .ok s
        ∧ (∀ x, x ∈ s ↔ ∃ a ∈ collectedAncestry c toClass, ∃ p ∈ a.sigParams,
            p.name = x ∧ p.isVarKeyword = false ∧ x ≠ "self")
        ∧ "self" ∉ s)
    ∧ (∀ toClass : PyClass,
        get_init_properties .obj toClass = .error (.indexError "list index out of range"))
    ∧ ∀ c : PyClass,
        get_init_properties c .obj = .error (.indexError "list index out of range") := by
  refine ⟨?_, fun _ => rfl, ?_⟩
  · intro toClass htc c
    induction c with
    | obj => intro hobj; exact absurd rfl hobj
    | cls ps parent ih =>
      intro _
      by_cases hsub : issubclass parent toClass = true
      · have hparent_ne : parent ≠ .obj := by
          intro hp
          rw [hp] at hsub
          exact htc ((issubclass_obj_left toClass).mp hsub)
        obtain ⟨s, hok, hchar, hself⟩ := ih hparent_ne
        refine ⟨(((PyClass.cls ps parent).sigParams.filter
            (fun p => !p.isVarKeyword && p.name ≠ "self")).map PyParam.name).toFinset ∪ s,
          ?_, ?_, ?_⟩
        · simp only [get_init_properties, hsub, if_true, hok]
        · intro x
          rw [Finset.mem_union, mem_own_params, hchar x]
          simp only [collectedAncestry, hsub, if_true, List.mem_cons]
          constructor
          · rintro (⟨p, hp, hrest⟩ | ⟨a, ha, hrest⟩)
            · exact ⟨.cls ps parent, Or.inl rfl, p, hp, hrest⟩
            · exact ⟨a, Or.inr ha, hrest⟩
          · rintro ⟨a, ha | ha, hrest⟩
            · subst ha
              exact Or.inl hrest
            · exact Or.inr ⟨a, ha, hrest⟩
        · intro hmem
          rw [Finset.mem_union] at hmem
          cases hmem with
          | inl h =>
            rw [mem_own_params] at h
            obtain ⟨p, _, _, _, hself2⟩ := h
            exact hself2 rfl
          | inr h => exact hself h
      · refine ⟨(((PyClass.cls ps parent).sigParams.filter
            (fun p => !p.isVarKeyword && p.name ≠ "self")).map PyParam.name).toFinset,
          ?_, ?_, ?_⟩
        · simp only [get_init_properties, hsub, Bool.false_eq_true, if_false]
        · intro x
          rw [mem_own_params]
          simp only [collectedAncestry, Bool.not_eq_true] at hsub
          simp only [collectedAncestry, hsub, Bool.false_eq_true, if_false, List.mem_cons,
            List.not_mem_nil, or_false]
          constructor
          · rintro ⟨p, hp, hrest⟩
            exact ⟨.cls ps parent, rfl, p, hp, hrest⟩
          · rintro ⟨a, ha, hrest⟩
            subst ha
            exact hrest
        · intro hmem
          rw [mem_own_params] at hmem
          obtain ⟨p, _, _, _, hself2⟩ := hmem
          exact hself2 rfl
  · intro c
    induction c with
    | obj => rfl
    | cls ps parent ih =>
      simp only [get_init_properties, issubclass_obj_right parent, if_true, ih]

/-- Witness for C7's amended statement on the two-level concrete
hierarchy: the subclass inherits `filters` from the base, excludes
`self` and the `**kwargs` collector, while the root class raises. -/
theorem get_init_properties_amended_witness :
    "filters" ∈ (Except.toOption (get_init_properties dummyHandlerCls handlerBaseCls)).getD ∅
      ∧ "kwargs" ∉ (Except.toOption (get_init_properties dummyHandlerCls handlerBaseCls)).getD ∅
      ∧ "self" ∉ (Except.toOption (get_init_properties dummyHandlerCls handlerBaseCls)).getD ∅
      ∧ get_init_properties .obj handlerBaseCls
          = .error (.indexError "list index out of range") := by
  obtain ⟨s, hok, hchar, hself⟩ :=
    get_init_properties_amended.1 handlerBaseCls (by decide) dummyHandlerCls (by decide)
  rw [hok]
  simp only [Except.toOption, Option.getD_some]
  refine ⟨?_, ?_, hself, get_init_properties_amended.2.1 handlerBaseCls⟩
  · rw [hchar "filters"]
    exact ⟨handlerBaseCls, by decide, ⟨"filters", false⟩, by decide, rfl, rfl, by decide⟩
  · rw [hchar "kwargs"]
    rintro ⟨a, ha, p, hp, hname, hvk, hself2⟩
    have hca : collectedAncestry dummyHandlerCls handlerBaseCls
        = [dummyHandlerCls, handlerBaseCls] := rfl
    have ha2 : a = dummyHandlerCls ∨ a = handlerBaseCls := by
      rw [hca] at ha
      simpa using ha
    have hps : p ∈ dummyHandlerCls.sigParams ∨ p ∈ handlerBaseCls.sigParams := by
      rcases ha2 with h | h
      · exact Or.inl (h ▸ hp)
      · exact Or.inr (h ▸ hp)
    rcases hps with h | h <;>
      [skip; skip] <;>
      simp only [dummyHandlerCls, handlerBaseCls, PyClass.sigParams, List.mem_cons,
        List.not_mem_nil, or_false] at h <;>
      rcases h with h1 | h1 | h1 <;> rw [h1] at hname hvk <;> simp_all

/-- The keyword-argument loop processes a concatenation left to right:
the right part runs only when the left part succeeded. -/
theorem processKwargs_append (env : PyEnv) (name : String) (va : Finset String) :
    ∀ (l1 l2 : List (String × CTree)) (acc : List (String × ArgVal)),
      processKwargs env name va acc (l1 ++ l2)
        = match processKwargs env name va acc l1 with
          | .ok acc2 => processKwargs env name va acc2 l2
          | .error e => .error e := by
  intro l1
  induction l1 with
  | nil => intro l2 acc; rfl
  | cons kv rest ih =>
    intro l2 acc
    obtain ⟨key, sub⟩ := kv
    rw [List.cons_append]
    by_cases hk : key ∉ va
    · simp only [processKwargs, if_pos hk]
    · simp only [processKwargs, if_neg hk]
      by_cases hf : key = "filters"
      · simp only [if_pos hf]
        cases hga : get_all_filters env name sub with
        | error e => rfl
        | ok fs => exact ih l2 (aupsert acc "filters" (.objs fs))
      · simp only [if_neg hf]
        cases hdk : decode_kwarg (.tree sub) with
        | error e => rfl
        | ok v => exact ih l2 (aupsert acc key (.lit v))

/-- C1 amended: the unknown-key check with close-match suggestion lives
only in the handler builder's keyword loop — a successful handler build
implies every child key was accepted, and the first non-accepted key
raises exactly the located "invalid setting" error carrying the
close-match suggestion when the matcher finds one; the filter builder,
by contrast, validates nothing: it decodes every child key as a keyword
argument (the decoded kwargs carry exactly the child keys) and hands
them all to the constructor. -/
theorem unknown_key_validation_amended :
    (∀ (env : PyEnv) (name : String) (va : Finset String) (acc res : List (String × ArgVal))
        (l : List (String × CTree)),
        processKwargs env name va acc l = .ok res → ∀ kv ∈ l, kv.1 ∈ va)
    ∧ (∀ (env : PyEnv) (name : String) (va : Finset String) (acc acc2 : List (String × ArgVal))
        (l1 : List (String × CTree)) (k : String) (sub : CTree) (l2 : List (String × CTree)),
        processKwargs env name va acc l1 = .ok acc2 →
        k ∉ va →
        processKwargs env name va acc (l1 ++ (k, sub) :: l2)
          = .error (.cabinetConfigError
              ("Pyramid invalid setting \"" ++ name ++ "." ++ k ++ "\". "
                ++ maybeTxt name (env.closeMatch k va))))
    ∧ (∀ (l : List (String × CTree)) (kwargs : List (String × ArgVal)),
        decodeAllKwargs l = .ok kwargs → kwargs.map Prod.fst = l.map Prod.fst)
    ∧ ∀ (env : PyEnv) (kp : String) (t : CTree) (fname : String) (ty : PyType)
        (kwargs : List (String × ArgVal)) (f : PyObj),
        t.leaf = some fname →
        try_import env "cabinet.filters" fname = .ok ty →
        decodeAllKwargs t.children = .ok kwargs →
        ty.ctor kwargs = .ok f →
        get_filter env kp t = .ok f := by
  refine ⟨?_, ?_, ?_, ?_⟩
  · intro env name va acc res l
    induction l generalizing acc with
    | nil => intro _ kv hkv; exact absurd hkv (List.not_mem_nil kv)
    | cons kv0 rest ih =>
      obtain ⟨key, sub⟩ := kv0
      intro hok kv hkv
      by_cases hk : key ∉ va
      · rw [show processKwargs env name va acc ((key, sub) :: rest)
            = .error (.cabinetConfigError
                ("Pyramid invalid setting \"" ++ name ++ "." ++ key ++ "\". "
                  ++ maybeTxt name (env.closeMatch key va))) by
            simp only [processKwargs, if_pos hk]] at hok
        exact absurd hok (by simp)
      · push_neg at hk
        rw [List.mem_cons] at hkv
        cases hkv with
        | inl h => rw [h]; exact hk
        | inr h =>
          revert hok
          simp only [processKwargs, if_neg (by simp [hk] : ¬key ∉ va)]
          by_cases hf : key = "filters"
          · simp only [if_pos hf]
            cases hga : get_all_filters env name sub with
            | error e => intro hok; exact absurd hok (by simp)
            | ok fs => intro hok; exact ih _ hok kv h
          · simp only [if_neg hf]
            cases hdk : decode_kwarg (.tree sub) with
            | error e => intro hok; exact absurd hok (by simp)
            | ok v => intro hok; exact ih _ hok kv h
  · intro env name va acc acc2 l1 k sub l2 hok hk
    rw [processKwargs_append env name va l1 ((k, sub) :: l2) acc, hok]
    simp only [processKwargs, if_pos hk]
  · intro l
    induction l with
    | nil =>
      intro kwargs hok
      cases hok
      rfl
    | cons kv rest ih =>
      obtain ⟨key, sub⟩ := kv
      intro kwargs hok
      revert hok
      simp only [decodeAllKwargs]
      cases hdk : decode_kwarg (.tree sub) with
      | error e => intro hok; exact absurd hok (by simp)
      | ok v =>
        cases hrest : decodeAllKwargs rest with
        | error e => intro hok; exact absurd hok (by simp)
        | ok kws =>
          intro hok
          cases hok
          simp only [List.map_cons]
          rw [ih kws hrest]
  · intro env kp t fname ty kwargs f hleaf himp hdec hctor
    simp only [get_filter, hleaf, himp, hdec, hctor]

/-- Models the CPython call protocol for a constructor that declares
exactly the listed keyword parameters: an unexpected keyword argument
raises `TypeError` (CPython additionally wraps the offending name in
quote characters; the quoting is omitted here), otherwise construction
succeeds. -/
def strictCtor (accepted : List String) (tagStr : String) :
    List (String × ArgVal) → Except PyError PyObj :=
  fun kwargs =>
    match kwargs.find? (fun kv => !accepted.contains kv.1) with
    | some kv => .error (.typeError ("init got an unexpected keyword argument " ++ kv.1))
    | none => .ok ⟨tagStr⟩

/-- An environment whose filter type binds its keyword arguments
strictly and whose close-match oracle does find the suggestion
`extensions` — making visible that the filter path never consults it. -/
def envSuggest : PyEnv :=
  ⟨[("cabinet.handlers",
      [("Dummy", ⟨dummyHandlerCls, strictCtor ["base_url", "filters"] "dummy"⟩)]),
    ("cabinet.filters",
      [("ValidateExt", ⟨extFilterCls, strictCtor ["extensions"] "vext"⟩)])],
    handlerBaseCls,
    fun _ _ => some "extensions"⟩

/-- Counterexample to C1: a filter configured with the mistyped key
`extension` (close to the accepted `extensions`) does not get the
claimed "invalid setting … did you mean" config error; the key flows
to the constructor unvalidated and surfaces as a generic "bad args"
error whose message contains no suggestion — even though the
environment's close-match oracle would have produced one. -/
theorem filter_unknown_key_no_suggestion_counterexample :
    get_filter envSuggest "store.handler.filters[0]"
        (.node (some "ValidateExt") [("extension", .node (some "png") [])])
      = .error (.cabinetConfigError
          "Pyramid settings bad args for store.handler.filters[0]: init got an unexpected keyword argument extension")
    ∧ strContains
        "Pyramid settings bad args for store.handler.filters[0]: init got an unexpected keyword argument extension"
        "extensions" = false
    ∧ strContains
        "Pyramid settings bad args for store.handler.filters[0]: init got an unexpected keyword argument extension"
        "Did you mean" = false
    ∧ envSuggest.closeMatch "extension" {"extensions"} = some "extensions" :=
  ⟨rfl, by decide, by decide, rfl⟩

/-- An environment whose close-match oracle suggests `base_url`. -/
def envSuggest2 : PyEnv :=
  ⟨[("cabinet.handlers",
      [("Dummy", ⟨dummyHandlerCls, strictCtor ["base_url", "filters"] "dummy"⟩)])],
    handlerBaseCls,
    fun _ _ => some "base_url"⟩

/-- Witness for C1's amended statement: the handler loop rejects a
mistyped key with the suggestion-bearing message, and the filter
builder passes an (even unknown) key through to the constructor. -/
theorem unknown_key_validation_amended_witness :
    processKwargs envSuggest2 "store.handler" {"base_url", "filters"} []
        [("base_orl", .node (some "x") [])]
      = .error (.cabinetConfigError
          "Pyramid invalid setting \"store.handler.base_orl\".  Did you mean \"store.handler.base_url\"?")
    ∧ get_filter envSuggest "store.handler.filters[0]"
        (.node (some "ValidateExt") [("extensions", .node (some "png") [])])
      = .ok ⟨"vext"⟩ := by
  constructor
  · exact unknown_key_validation_amended.2.1 envSuggest2 "store.handler" {"base_url", "filters"}
      [] [] [] "base_orl" (.node (some "x") []) [] rfl (by decide)
  · exact unknown_key_validation_amended.2.2.2 envSuggest "store.handler.filters[0]"
      (.node (some "ValidateExt") [("extensions", .node (some "png") [])])
      "ValidateExt" ⟨extFilterCls, strictCtor ["extensions"] "vext"⟩
      [("extensions", .lit (.str "png"))] ⟨"vext"⟩ rfl rfl rfl rfl

/-- The strict version of the sort comparison, decided entirely by the
integer indices. -/
def pairLt (a b : Int × PyObj) : Prop := a.1 < b.1

instance : IsAntisymm (Int × PyObj) pairLt :=
  ⟨fun _ _ h1 h2 => absurd (lt_trans h1 h2) (lt_irrefl _)⟩

/-- A `≤`-sorted pair list with pairwise-distinct indices is strictly
sorted by index. -/
theorem sorted_lt_of_sorted_le_nodup (l : List (Int × PyObj))
    (hs : List.Sorted pairLe l) (hn : (l.map Prod.fst).Nodup) :
    List.Sorted pairLt l := by
  have hpw : l.Pairwise (fun a b => a.1 ≠ b.1) := by
    rw [List.Nodup, List.pairwise_map] at hn
    exact hn
  exact (List.Pairwise.and hs hpw).imp (fun h => lt_of_le_of_ne h.1 h.2)

/-- The collected `(index, filter)` pairs are exactly the pointwise
successful parses and builds, in order. -/
theorem collect_ok_iff_forall2 (env : PyEnv) (kp : String) :
    ∀ (l : List (String × CTree)) (ps : List (Int × PyObj)),
      collectFilterPairs env kp l = .ok ps
        ↔ List.Forall₂
            (fun kv p => parseFilterIndex kv.1 = some p.1
              ∧ get_filter env (kp ++ ".filters" ++ kv.1) kv.2 = .ok p.2) l ps := by
  intro l
  induction l with
  | nil =>
    intro ps
    constructor
    · intro h
      have h2 := Except.ok.inj h
      rw [← h2]
      exact List.Forall₂.nil
    · intro h
      cases h
      rfl
  | cons kv rest ih =>
    intro ps
    obtain ⟨ref, sub⟩ := kv
    cases hpi : parseFilterIndex ref with
    | none =>
      simp only [collectFilterPairs, hpi]
      constructor
      · intro h
        exact absurd h (by simp)
      · intro h
        cases h with
        | cons hhead htail =>
          rw [hpi] at hhead
          exact absurd hhead.1 (by simp)
    | some idx =>
      cases hgf : get_filter env (kp ++ ".filters" ++ ref) sub with
      | error e =>
        simp only [collectFilterPairs, hpi, hgf]
        constructor
        · intro h
          exact absurd h (by simp)
        · intro h
          cases h with
          | cons hhead htail =>
            have h2 := hhead.2
            rw [hgf] at h2
            exact absurd h2 (by simp)
      | ok f =>
        cases hrest : collectFilterPairs env kp rest with
        | error e =>
          simp only [collectFilterPairs, hpi, hgf, hrest]
          constructor
          · intro h
            exact absurd h (by simp)
          · intro h
            cases h with
            | cons hhead htail =>
              have h2 := (ih _).mpr htail
              rw [hrest] at h2
              exact absurd h2 (by simp)
        | ok tail =>
          simp only [collectFilterPairs, hpi, hgf, hrest]
          constructor
          · intro h
            have h2 := Except.ok.inj h
            rw [← h2]
            exact List.Forall₂.cons ⟨hpi, hgf⟩ ((ih tail).mp hrest)
          · intro h
            cases h with
            | cons hhead htail =>
              rename_i b l2
              have hb1 : idx = b.1 := by
                have h1 := hhead.1
                rw [hpi] at h1
                exact Option.some.inj h1
              have hb2 : f = b.2 := by
                have h2 := hhead.2
                rw [hgf] at h2
                exact Except.ok.inj h2
              have htl : collectFilterPairs env kp rest = .ok l2 := (ih l2).mpr htail
              rw [hrest] at htl
              have hl2 : tail = l2 := Except.ok.inj htl
              rw [← hl2, show ((idx, f) : Int × PyObj) = b from Prod.ext hb1 hb2]

/-- C2: when every bracket key of the filter sub-tree parses and builds
(collected as `ps1`) and the parsed indices are pairwise distinct, the
returned chain is the instances arranged in strictly ascending index
order, and the result is the same for any permutation of the entries
(Python dict order is insertion order, so permuting the entries is
exactly presenting the same configuration keys in another order). -/
theorem filter_chain_sorted_order_independent (env : PyEnv) (kp : String)
    (l1 l2 : List (String × CTree)) (ps1 : List (Int × PyObj))
    (hperm : l1.Perm l2)
    (hok : collectFilterPairs env kp l1 = .ok ps1)
    (hnodup : (ps1.map Prod.fst).Nodup) :
    (∃ sortedPairs, sortedPairs.Perm ps1 ∧ List.Sorted pairLt sortedPairs
        ∧ get_all_filters env kp (.node none l1) = .ok (sortedPairs.map Prod.snd))
      ∧ get_all_filters env kp (.node none l1) = get_all_filters env kp (.node none l2) := by
  have hsort_perm : (ps1.insertionSort pairLe).Perm ps1 := List.perm_insertionSort pairLe ps1
  have hsort_sorted : List.Sorted pairLe (ps1.insertionSort pairLe) :=
    List.sorted_insertionSort pairLe ps1
  have hnodup1 : ((ps1.insertionSort pairLe).map Prod.fst).Nodup :=
    ((hsort_perm.map Prod.fst).nodup_iff).mpr hnodup
  have hlt1 := sorted_lt_of_sorted_le_nodup _ hsort_sorted hnodup1
  have hga1 : get_all_filters env kp (.node none l1)
      = .ok ((ps1.insertionSort pairLe).map Prod.snd) := by
    simp only [get_all_filters, CTree.leaf, CTree.children, hok]
  refine ⟨⟨ps1.insertionSort pairLe, hsort_perm, hlt1, hga1⟩, ?_⟩
  have hfa1 := (collect_ok_iff_forall2 env kp l1 ps1).mp hok
  obtain ⟨ps2, hfa2, hp21⟩ := List.perm_comp_forall₂ hperm.symm hfa1
  have hok2 : collectFilterPairs env kp l2 = .ok ps2 :=
    (collect_ok_iff_forall2 env kp l2 ps2).mpr hfa2
  have hperm_ps : ps1.Perm ps2 := hp21.symm
  have hnodup2 : (ps2.map Prod.fst).Nodup := ((hperm_ps.map Prod.fst).nodup_iff).mp hnodup
  have hsp2 : (ps2.insertionSort pairLe).Perm ps2 := List.perm_insertionSort pairLe ps2
  have hss2 : List.Sorted pairLe (ps2.insertionSort pairLe) :=
    List.sorted_insertionSort pairLe ps2
  have hnodup2s : ((ps2.insertionSort pairLe).map Prod.fst).Nodup :=
    ((hsp2.map Prod.fst).nodup_iff).mpr hnodup2
  have hlt2 := sorted_lt_of_sorted_le_nodup _ hss2 hnodup2s
  have hpermsorts : (ps1.insertionSort pairLe).Perm (ps2.insertionSort pairLe) :=
    hsort_perm.trans (hperm_ps.trans hsp2.symm)
  have heq : ps1.insertionSort pairLe = ps2.insertionSort pairLe :=
    List.eq_of_perm_of_sorted hpermsorts hlt1 hlt2
  have hga2 : get_all_filters env kp (.node none l2)
      = .ok ((ps2.insertionSort pairLe).map Prod.snd) := by
    simp only [get_all_filters, CTree.leaf, CTree.children, hok2]
  rw [hga1, hga2, heq]

/-- The `[1]`-then-`[0]` filter entries, as they would appear when the
`[1]` key comes first in the settings map. -/
def filtersOutOfOrder : List (String × CTree) :=
  [("[1]", .node (some "ValidateExt") []), ("[0]", .node (some "Randomize") [])]

/-- The same two entries in the opposite order. -/
def filtersInOrder : List (String × CTree) :=
  [("[0]", .node (some "Randomize") []), ("[1]", .node (some "ValidateExt") [])]

/-- Witness for C2: with the `[1]` entry listed first, the chain still
comes out `[0]`-filter first, and both presentation orders produce the
same chain. -/
theorem filter_chain_sorted_order_independent_witness :
    get_all_filters envOk "store.handler" (.node none filtersOutOfOrder)
        = get_all_filters envOk "store.handler" (.node none filtersInOrder)
      ∧ get_all_filters envOk "store.handler" (.node none filtersOutOfOrder)
        = .ok [⟨"rand"⟩, ⟨"vext"⟩] := by
  have h := filter_chain_sorted_order_independent envOk "store.handler"
    filtersOutOfOrder filtersInOrder [(1, ⟨"vext"⟩), (0, ⟨"rand"⟩)]
    (List.Perm.swap _ _ _) rfl (by decide)
  refine ⟨h.2, ?_⟩
  rw [h.2]
  rfl
